import Mathlib

/-!
Shallow embedding of the ride-sharing system (vehicle.py, ride.py, users.py,
main.py) and proofs of its specified properties.

Modelling conventions:
* Python floats holding money, fares and ratings are modelled as `ℚ`.
* Mutation is modelled by explicit state passing: each method returns the
  updated records of every object it mutates.
* `random.randint(5, 25)` is modelled by an explicit random source `g : ℕ`
  mapped into the interval `[5, 25]`.
* Wall-clock timestamps (`start_time` / `end_time`) are not modelled; no
  verified property depends on them.
* Fallible paths (Python exceptions caught by the caller, or `None` returns
  carrying a printed error) are modelled with `Except SysError` using the
  error taxonomy of the specification.
* Object references (`ride.driver`, `ride.rider`) are modelled by stable
  string identifiers (the owner's `nid`), as mutual record references are
  not directly expressible.
-/

namespace RideShare

/-- Error taxonomy: structured results standing for the printed-and-return-None
error paths of the Python code. -/
inductive SysError where
  | invalidInput
  | noDriverAvailable
  | insufficientFunds
  | invalidRating
  | activeRideExists
deriving DecidableEq

instance {ε α : Type} [DecidableEq ε] [DecidableEq α] : DecidableEq (Except ε α) :=
  fun a b =>
    match a, b with
    | .error e, .error f => decidable_of_iff (e = f) (by simp)
    | .ok x, .ok y => decidable_of_iff (x = y) (by simp)
    | .error _, .ok _ => isFalse (by simp)
    | .ok _, .error _ => isFalse (by simp)

/-- vehicle.py `Vehicle`: type, license plate and per-km rate. -/
structure Vehicle where
  vehicle_type : String
  license_plate : String
  rate : ℚ
deriving DecidableEq

/-- vehicle.py `Car(license_plate)` with its default rate 30. -/
def Car (license_plate : String) : Vehicle :=
  { vehicle_type := "car", license_plate := license_plate, rate := 30 }

/-- vehicle.py `Bike(license_plate)` with its default rate 20. -/
def Bike (license_plate : String) : Vehicle :=
  { vehicle_type := "bike", license_plate := license_plate, rate := 20 }

/-- vehicle.py `CNG(license_plate)` with its default rate 25. -/
def CNG (license_plate : String) : Vehicle :=
  { vehicle_type := "cng", license_plate := license_plate, rate := 25 }

/-- Rounding a rational to 2 decimal places, modelling Python `round(x, 2)`
on the exact values the system computes. -/
def round2 (q : ℚ) : ℚ := (Rat.floor (q * 100 + 1 / 2) : ℚ) / 100

/-- ride.py `Ride.CANCELLATION_FEE` (20 BDT). -/
def CANCELLATION_FEE : ℚ := 20

/-- ride.py `Ride`. `driver` / `rider` hold the bound party's identifier
(`none` when unbound). Timestamps are omitted (see module docstring). -/
structure Ride where
  start_location : String
  end_location : String
  driver : Option String
  rider : Option String
  vehicle : Option Vehicle
  distance : ℚ
  estimated_fare : ℚ
  is_completed : Bool
  is_cancelled : Bool
  cancellation_fee : ℚ
  rating : Option ℤ
deriving DecidableEq

/-- ride.py `Ride.calculate_fare`: `50 + distance * vehicle.rate`, rounded to
2 decimals. In Python an absent vehicle raises `AttributeError` here (caught
by the requesting caller); modelled as the `invalidInput` error. -/
def calculate_fare (vehicle : Option Vehicle) (distance : ℚ) : Except SysError ℚ :=
  match vehicle with
  | none => .error .invalidInput
  | some v => .ok (round2 (50 + distance * v.rate))

/-- Model of `random.randint(5, 25)`: an integer in `[5, 25]` drawn from the
explicit random source `g`. -/
def randint_5_25 (g : ℕ) : ℕ := 5 + g % 21

/-- ride.py `Ride.__init__`: `distance if distance else random.randint(5, 25)`
(so both an absent distance and a supplied falsy `0` trigger the random
default), then `estimated_fare = calculate_fare()`. -/
def Ride.init (start_location end_location : String) (vehicle : Option Vehicle)
    (distance : Option ℚ) (g : ℕ) : Except SysError Ride :=
  let dist : ℚ :=
    match distance with
    | some d => if d = 0 then (randint_5_25 g : ℚ) else d
    | none => (randint_5_25 g : ℚ)
  match calculate_fare vehicle dist with
  | .error e => .error e
  | .ok fare =>
      .ok { start_location := start_location
            end_location := end_location
            driver := none
            rider := none
            vehicle := vehicle
            distance := dist
            estimated_fare := fare
            is_completed := false
            is_cancelled := false
            cancellation_fee := CANCELLATION_FEE
            rating := none }

/-- users.py `Rider`: account fields plus rider-specific state. -/
structure Rider where
  name : String
  email : String
  nid : String
  wallet : ℚ
  current_ride : Option Ride
  current_location : String
  ride_history : List Ride
  average_rating : ℚ
  total_ratings : ℕ
deriving DecidableEq

/-- users.py `Rider.__init__`. -/
def Rider.init (name email nid current_location : String) (initial_amount : ℚ) : Rider :=
  { name := name, email := email, nid := nid, wallet := initial_amount
    current_ride := none, current_location := current_location
    ride_history := [], average_rating := 0, total_ratings := 0 }

/-- users.py `Driver`: account fields plus driver-specific state. -/
structure Driver where
  name : String
  email : String
  nid : String
  wallet : ℚ
  current_location : String
  vehicle : Option Vehicle
  total_rides : ℕ
  is_available : Bool
  ride_history : List Ride
  average_rating : ℚ
  total_ratings : ℕ
deriving DecidableEq

/-- users.py `Driver.__init__`. -/
def Driver.init (name email nid current_location : String) (vehicle : Option Vehicle) :
    Driver :=
  { name := name, email := email, nid := nid, wallet := 0
    current_location := current_location, vehicle := vehicle
    total_rides := 0, is_available := true, ride_history := []
    average_rating := 0, total_ratings := 0 }

/-- ride.py `Ride.end_ride`: marks the ride completed, debits the rider's
wallet by the fare and credits the driver's (no balance check), appends the
(now completed) ride to the rider's history and clears the rider's
`current_ride`. Returns the updated ride, rider and driver. -/
def Ride.end_ride (r : Ride) (rider : Rider) (driver : Driver) :
    Ride × Rider × Driver :=
  let r' := { r with is_completed := true }
  let rider' :=
    { rider with
      wallet := rider.wallet - r'.estimated_fare
      ride_history := rider.ride_history ++ [r']
      current_ride := none }
  let driver' := { driver with wallet := driver.wallet + r'.estimated_fare }
  (r', rider', driver')

/-- users.py `Driver.reach_destination`: runs `end_ride`, then increments the
driver's `total_rides`, sets the driver available again and records the ride
in the driver's own history. -/
def Driver.reach_destination (driver : Driver) (r : Ride) (rider : Rider) :
    Ride × Rider × Driver :=
  let out := Ride.end_ride r rider driver
  (out.1, out.2.1,
    { out.2.2 with
      total_rides := out.2.2.total_rides + 1
      is_available := true
      ride_history := out.2.2.ride_history ++ [out.1] })

/-- ride.py `Ride.cancel_ride`. The Python method returns `False` from its
two already-terminal guards and falls through (returning `None`) after a
successful cancellation; that return value is modelled as `Option Bool`.
The bound driver (if any) is passed as `driver`; the result carries the
updated ride, rider and driver. -/
def Ride.cancel_ride (r : Ride) (rider : Rider) (driver : Option Driver)
    (cancelled_by : String) : Option Bool × Ride × Rider × Option Driver :=
  if r.is_completed then (some false, r, rider, driver)
  else if r.is_cancelled then (some false, r, rider, driver)
  else
    let r' := { r with is_cancelled := true }
    let fee := r.cancellation_fee
    let (rider', driver1) :=
      if cancelled_by = "rider" then
        if fee ≤ rider.wallet then
          ({ rider with wallet := rider.wallet - fee },
            driver.map fun d => { d with wallet := d.wallet + fee })
        else (rider, driver)
      else (rider, driver)
    (none, r', rider', driver1.map fun d => { d with is_available := true })

/-- users.py `Rider.rate_driver`: rejects a score outside `[1, 5]`, otherwise
stores the score on the ride and updates the driver's rating accumulator with
the incremental-mean formula. The score is an integer (the CLI converts the
input with `int(...)` before the range check). -/
def Rider.rate_driver (r : Ride) (driver : Driver) (rating : ℤ) :
    Bool × Ride × Driver :=
  if rating < 1 ∨ 5 < rating then (false, r, driver)
  else
    let n : ℕ := driver.total_ratings + 1
    (true, { r with rating := some rating },
      { driver with
        total_ratings := n
        average_rating := (driver.average_rating * ((n : ℚ) - 1) + (rating : ℚ)) / (n : ℚ) })

/-- users.py `Driver.rate_rider`: same range check and incremental-mean
update, applied to the rider's accumulator (the ride is not modified). -/
def Driver.rate_rider (rider : Rider) (rating : ℤ) : Bool × Rider :=
  if rating < 1 ∨ 5 < rating then (false, rider)
  else
    let n : ℕ := rider.total_ratings + 1
    (true,
      { rider with
        total_ratings := n
        average_rating := (rider.average_rating * ((n : ℚ) - 1) + (rating : ℚ)) / (n : ℚ) })

/-- users.py `Driver.accept_ride`: binds the driver to the ride
(`ride.set_driver(self)`) and marks the driver unavailable. (`start_ride`
only records the wall-clock start time, which is not modelled.) -/
def Driver.accept_ride (d : Driver) (r : Ride) : Ride × Driver :=
  ({ r with driver := some d.nid }, { d with is_available := false })

/-- ride.py `RideMatching.__init__`: keeps only the available drivers. -/
def RideMatching.available (drivers : List Driver) : List Driver :=
  drivers.filter fun d => d.is_available

/-- Python `str.lower()`, mapping `Char.toLower` over the characters. -/
def strLower (s : String) : String := ⟨s.data.map Char.toLower⟩

/-- The suitability test of ride.py `RideMatching.find_driver`:
`driver.vehicle and driver.vehicle.vehicle_type == vehicle_type.lower()`. -/
def suitable_for (vehicle_type : String) (d : Driver) : Bool :=
  match d.vehicle with
  | some v => v.vehicle_type == strLower vehicle_type
  | none => false

/-- One comparison step of Python `max(..., key=key)`: the current best is
replaced only on a strictly larger key. -/
def pyMaxStep {α : Type} (key : α → ℚ) (best x : α) : α :=
  if key best < key x then x else best

/-- Python `max(l, key=key)`: the first element of `l` attaining the maximal
key; `none` on an empty list. -/
def pyMax {α : Type} (key : α → ℚ) : List α → Option α
  | [] => none
  | a :: as => some (as.foldl (pyMaxStep key) a)

/-- ride.py `RideMatching.find_driver` (with `RideMatching.__init__` already
applied: `available_drivers` is the availability-filtered pool): filters by
vehicle type, picks the best-rated driver, builds the ride from the winner's
vehicle and a random distance, and has the winner accept it. The two
`return None` paths (empty pool / no suitable driver) are the
`noDriverAvailable` error. -/
def RideMatching.find_driver (available_drivers : List Driver)
    (rider_location end_location : String) (vehicle_type : String) (g : ℕ) :
    Except SysError (Ride × Driver) :=
  if available_drivers.isEmpty then .error .noDriverAvailable
  else
    (pyMax (fun d => d.average_rating)
        (available_drivers.filter (suitable_for vehicle_type))).elim
      (.error .noDriverAvailable)
      (fun best =>
        (Ride.init rider_location end_location best.vehicle none g).map
          best.accept_ride)

/-- users.py `Rider.request_ride`'s guard: the rider already holds a ride
that is neither completed nor cancelled. -/
def hasActiveRide (rider : Rider) : Bool :=
  match rider.current_ride with
  | some cr => !cr.is_completed && !cr.is_cancelled
  | none => false

/-- Post-state of a ride request: the structured result, the rider's updated
record, and (when matching bound a driver) that driver's updated record —
in Python the driver object inside the registry is mutated in place, so its
post-state persists even when the request fails. -/
structure RequestOutcome where
  result : Except SysError Ride
  rider : Rider
  matched_driver : Option Driver
deriving DecidableEq

/-- users.py `Rider.request_ride`: rejects a second active ride, runs the
matching engine over the registry's drivers, then checks affordability.
On `wallet >= fare` the ride is bound to the rider and stored as
`current_ride`; otherwise the request fails with `insufficientFunds` and —
as in the source — the matched driver is NOT released (no rollback of
`accept_ride`). -/
def Rider.request_ride (rider : Rider) (drivers : List Driver)
    (destination vehicle_type : String) (g : ℕ) : RequestOutcome :=
  if hasActiveRide rider then
    { result := .error .activeRideExists, rider := rider, matched_driver := none }
  else
    match RideMatching.find_driver (RideMatching.available drivers)
        rider.current_location destination vehicle_type g with
    | .error e => { result := .error e, rider := rider, matched_driver := none }
    | .ok (ride, driver') =>
        if ride.estimated_fare ≤ rider.wallet then
          let ride' := { ride with rider := some rider.nid }
          { result := .ok ride'
            rider := { rider with current_ride := some ride' }
            matched_driver := some driver' }
        else
          { result := .error .insufficientFunds
            rider := rider
            matched_driver := some driver' }

/-- Sort key of ride.py `RideSharing.get_top_rated_drivers`:
`(average_rating, total_rides)`. -/
def trd_key (d : Driver) : ℚ × ℕ := (d.average_rating, d.total_rides)

/-- Lexicographic "comes no later in the descending order" relation used to
model Python `sorted(..., key=..., reverse=True)`: `a` may precede `b` when
the key of `b` is lexicographically at most the key of `a`. -/
def trd_before (a b : Driver) : Prop :=
  (trd_key b).1 < (trd_key a).1 ∨
    ((trd_key b).1 = (trd_key a).1 ∧ (trd_key b).2 ≤ (trd_key a).2)

instance : DecidableRel trd_before := fun a b => by
  unfold trd_before; infer_instance

instance : IsTotal Driver trd_before :=
  ⟨by
    intro a b
    unfold trd_before
    rcases lt_trichotomy (trd_key a).1 (trd_key b).1 with h | h | h
    · exact .inr (.inl h)
    · rcases Nat.le_total (trd_key a).2 (trd_key b).2 with h2 | h2
      · exact .inr (.inr ⟨h, h2⟩)
      · exact .inl (.inr ⟨h.symm, h2⟩)
    · exact .inl (.inl h)⟩

instance : IsTrans Driver trd_before :=
  ⟨by
    intro a b c hab hbc
    unfold trd_before at *
    rcases hab with h1 | ⟨e1, l1⟩
    · rcases hbc with h2 | ⟨e2, _⟩
      · exact .inl (h2.trans h1)
      · exact .inl (e2 ▸ h1)
    · rcases hbc with h2 | ⟨e2, l2⟩
      · exact .inl (e1 ▸ h2)
      · exact .inr ⟨e2.trans e1, l2.trans l1⟩⟩

/-- ride.py `RideSharing.get_top_rated_drivers`: keep drivers with at least
one rating, sort them descending by `(average_rating, total_rides)` (Python
`sorted(..., reverse=True)` is a stable descending sort, modelled by
insertion sort along `trd_before`), and return the first `limit`. -/
def get_top_rated_drivers (drivers : List Driver) (limit : ℕ) : List Driver :=
  if drivers.isEmpty then []
  else
    let rated := drivers.filter fun d => 0 < d.total_ratings
    if rated.isEmpty then []
    else (List.insertionSort trd_before rated).take limit

/-- The specification's description of a matchable driver: available, with a
vehicle whose type equals the requested type compared case-insensitively.
(Claim-side definition, to be compared with the code's availability filter
plus `suitable_for`.) -/
def spec_suitable (vehicle_type : String) (d : Driver) : Bool :=
  d.is_available &&
    match d.vehicle with
    | some v => strLower v.vehicle_type == strLower vehicle_type
    | none => false

/-- An in-progress bike ride (fare 250) bound to rider nid 123 and driver
nid 456, for concrete instantiations. -/
def c3_ride : Ride :=
  { start_location := "Dhanmondi", end_location := "Banani"
    driver := some "456", rider := some "123"
    vehicle := some (Bike "DHK-5678"), distance := 10, estimated_fare := 250
    is_completed := false, is_cancelled := false
    cancellation_fee := CANCELLATION_FEE, rating := none }

/-- A rider (nid 123, wallet 100) currently on `c3_ride`. -/
def c3_rider : Rider :=
  { Rider.init "Rina" "rina@email.com" "123" "Dhanmondi" 100 with
    current_ride := some c3_ride }

/-- The driver (nid 456) bound to `c3_ride`. -/
def c3_driver : Driver :=
  { Driver.init "Hablu" "hablu@email.com" "456" "Gulshan" (some (Bike "DHK-5678")) with
    is_available := false }

/-- A freshly registered driver (0 ratings, average 0), as in users.py
`Driver.__init__`. -/
def c7_fresh_driver : Driver :=
  Driver.init "Hablu" "hablu@email.com" "456" "Gulshan" (some (Car "DHK-1234"))

/-- main.py demo driver Hablu: car, rating 4.5 from 10 ratings. -/
def demo_hablu : Driver :=
  { Driver.init "Hablu" "hablu@email.com" "456" "Gulshan" (some (Car "DHK-1234")) with
    average_rating := 4.5, total_ratings := 10 }

/-- main.py demo driver Karim: bike, rating 4.8 from 15 ratings. -/
def demo_karim : Driver :=
  { Driver.init "Karim" "karim@email.com" "789" "Banani" (some (Bike "DHK-5678")) with
    average_rating := 4.8, total_ratings := 15 }

/-- main.py demo driver Jamal: CNG, rating 4.2 from 8 ratings. -/
def demo_jamal : Driver :=
  { Driver.init "Jamal" "jamal@email.com" "321" "Uttara" (some (CNG "DHK-9012")) with
    average_rating := 4.2, total_ratings := 8 }

/-- The spec's insufficient-funds scenario rider: wallet 100. -/
def c4_rider : Rider := Rider.init "Gablu" "gablu@email.com" "765" "Mohakhali" 100

/-- An available car driver for the insufficient-funds scenario. -/
def c4_driver : Driver :=
  Driver.init "Hablu" "hablu@email.com" "456" "Gulshan" (some (Car "DHK-1234"))

/-- A ride in the terminal `cancelled` state (fare 250), bound to rider nid
123 and driver nid 456. -/
def c5_ride : Ride :=
  { start_location := "Dhanmondi", end_location := "Banani"
    driver := some "456", rider := some "123"
    vehicle := some (Bike "DHK-5678"), distance := 10, estimated_fare := 250
    is_completed := false, is_cancelled := true
    cancellation_fee := CANCELLATION_FEE, rating := none }

/-- The rider holding the already-cancelled `c5_ride` (cancel_ride never
clears `current_ride`, so the completion flow still reaches it). -/
def c5_rider : Rider :=
  { Rider.init "Rina" "rina@email.com" "123" "Dhanmondi" 480 with
    current_ride := some c5_ride }

/-- The driver that was bound to `c5_ride`. -/
def c5_driver : Driver :=
  Driver.init "Hablu" "hablu@email.com" "456" "Gulshan" (some (Bike "DHK-5678"))

/-! Verified properties of the system, one theorem per claim, with concrete
witnesses. -/

/-- C1: for every vehicle with per-km rate `v.rate` and caller-supplied
distance `d > 0`, the ride created with that vehicle and distance has fare
`50 + d * v.rate` rounded to 2 decimal places (and keeps the supplied
distance). -/
theorem C1_fare_formula (s e : String) (v : Vehicle) (d : ℚ) (g : ℕ) (hd : 0 < d) :
    ∃ r, Ride.init s e (some v) (some d) g = .ok r ∧
      r.estimated_fare = round2 (50 + d * v.rate) ∧ r.distance = d := by
  have hne : d ≠ 0 := ne_of_gt hd
  simp only [Ride.init, calculate_fare, if_neg hne]
  exact ⟨_, rfl, rfl, rfl⟩

/-- Witness for C1: a car (rate 30) over 10 km. -/
theorem C1_fare_formula_witness :
    (0 : ℚ) < 10 ∧
      ∃ r, Ride.init "Mohakhali" "Banani" (some (Car "DHK-1234")) (some 10) 0 = .ok r ∧
        r.estimated_fare = round2 (50 + 10 * (Car "DHK-1234").rate) ∧ r.distance = 10 :=
  ⟨by norm_num, C1_fare_formula "Mohakhali" "Banani" (Car "DHK-1234") 10 0 (by norm_num)⟩

/-- C3: completing an in-progress ride with bound rider and driver debits the
rider's wallet by exactly the fare and credits the driver's (no balance
check, so the rider's wallet may go negative), appends the completed ride to
the rider's history, clears the rider's `current_ride`, increments the
driver's `total_rides` and makes the driver available again. -/
theorem C3_complete_settlement (r : Ride) (ri : Rider) (d : Driver)
    (h1 : r.is_completed = false) (h2 : r.is_cancelled = false)
    (hbr : r.rider = some ri.nid) (hbd : r.driver = some d.nid) :
    (Driver.reach_destination d r ri).2.1.wallet = ri.wallet - r.estimated_fare ∧
    (Driver.reach_destination d r ri).2.2.wallet = d.wallet + r.estimated_fare ∧
    (Driver.reach_destination d r ri).2.1.ride_history
      = ri.ride_history ++ [(Driver.reach_destination d r ri).1] ∧
    (Driver.reach_destination d r ri).2.1.current_ride = none ∧
    (Driver.reach_destination d r ri).2.2.total_rides = d.total_rides + 1 ∧
    (Driver.reach_destination d r ri).2.2.is_available = true ∧
    (Driver.reach_destination d r ri).1.is_completed = true :=
  ⟨rfl, rfl, rfl, rfl, rfl, rfl, rfl⟩

/-- Witness for C3: the concrete in-progress ride `c3_ride` (note the fare,
250, exceeds the rider's wallet of 100, so the debit drives it negative). -/
theorem C3_complete_settlement_witness :
    (Driver.reach_destination c3_driver c3_ride c3_rider).2.1.wallet
      = c3_rider.wallet - c3_ride.estimated_fare ∧
    (Driver.reach_destination c3_driver c3_ride c3_rider).2.2.wallet
      = c3_driver.wallet + c3_ride.estimated_fare ∧
    (Driver.reach_destination c3_driver c3_ride c3_rider).2.1.ride_history
      = c3_rider.ride_history ++ [(Driver.reach_destination c3_driver c3_ride c3_rider).1] ∧
    (Driver.reach_destination c3_driver c3_ride c3_rider).2.1.current_ride = none ∧
    (Driver.reach_destination c3_driver c3_ride c3_rider).2.2.total_rides
      = c3_driver.total_rides + 1 ∧
    (Driver.reach_destination c3_driver c3_ride c3_rider).2.2.is_available = true ∧
    (Driver.reach_destination c3_driver c3_ride c3_rider).1.is_completed = true :=
  C3_complete_settlement c3_ride c3_rider c3_driver rfl rfl rfl rfl

/-- C9: creating a ride with no vehicle fails with the structured
`invalidInput` error (it never yields a ride and never aborts the model,
whose fallible operations return `Except`); with a vehicle present, creation
succeeds. -/
theorem C9_no_vehicle_invalid_input :
    (∀ s e dist g, Ride.init s e none dist g = .error .invalidInput) ∧
    (∀ s e v dist g, ∃ r, Ride.init s e (some v) dist g = .ok r) := by
  constructor
  · intro s e dist g; rfl
  · intro s e v dist g; exact ⟨_, rfl⟩

/-- C10: a supplied distance of 0 is falsy in Python, so — exactly like an
absent distance — it is replaced by the sampled integer distance in [5, 25];
consequently no constructed ride ever has distance 0. -/
theorem C10_default_distance (g : ℕ) :
    5 ≤ randint_5_25 g ∧ randint_5_25 g ≤ 25 ∧
    (∀ s e v r, Ride.init s e (some v) (some 0) g = .ok r →
      r.distance = (randint_5_25 g : ℚ)) ∧
    (∀ s e v r, Ride.init s e (some v) none g = .ok r →
      r.distance = (randint_5_25 g : ℚ)) ∧
    (∀ s e vo dist r, Ride.init s e vo dist g = .ok r → r.distance ≠ 0) := by
  refine ⟨Nat.le_add_right 5 (g % 21), ?_, ?_, ?_, ?_⟩
  · have : g % 21 < 21 := Nat.mod_lt g (by norm_num)
    unfold randint_5_25
    omega
  · intro s e v r h
    simp only [Ride.init, calculate_fare, if_pos rfl] at h
    injection h with h'
    subst h'
    rfl
  · intro s e v r h
    simp only [Ride.init, calculate_fare] at h
    injection h with h'
    subst h'
    rfl
  · intro s e vo dist r h
    have hpos : 0 < randint_5_25 g := by unfold randint_5_25; omega
    cases vo with
    | none => simp [Ride.init, calculate_fare] at h
    | some v =>
      cases dist with
      | none =>
        simp only [Ride.init, calculate_fare] at h
        injection h with h'
        subst h'
        exact Nat.cast_ne_zero.mpr hpos.ne'
      | some dd =>
        by_cases hdd : dd = 0
        · subst hdd
          simp only [Ride.init, calculate_fare, if_pos rfl] at h
          injection h with h'
          subst h'
          exact Nat.cast_ne_zero.mpr hpos.ne'
        · simp only [Ride.init, calculate_fare, if_neg hdd] at h
          injection h with h'
          subst h'
          exact hdd

/-- Witness for C10: with random source 7 the default distance is 12, and it
is indeed used for a ride created with supplied distance 0. -/
theorem C10_default_distance_witness :
    5 ≤ randint_5_25 7 ∧ randint_5_25 7 ≤ 25 ∧
    ∃ r, Ride.init "A" "B" (some (Bike "X")) (some 0) 7 = .ok r ∧
      r.distance = (randint_5_25 7 : ℚ) ∧ r.distance ≠ 0 := by
  obtain ⟨r, hr⟩ : ∃ r, Ride.init "A" "B" (some (Bike "X")) (some 0) 7 = .ok r :=
    ⟨_, rfl⟩
  exact ⟨(C10_default_distance 7).1, (C10_default_distance 7).2.1, r, hr,
    (C10_default_distance 7).2.2.1 "A" "B" (Bike "X") r hr,
    (C10_default_distance 7).2.2.2.2 "A" "B" (some (Bike "X")) (some 0) r hr⟩

/-- C7: rating with an integer score in [1, 5] increments the target's
`total_ratings` and updates `average_rating` by the incremental-mean formula
`(old_avg * (n - 1) + score) / n` with `n` the post-increment count — in both
directions (rider rates driver, driver rates rider); a score outside [1, 5]
is rejected with the target unchanged; and a fresh driver rated 5, 3, 4 in
sequence ends at average 4.0 with 3 ratings. -/
theorem C7_rating_update (r : Ride) (d : Driver) (ri : Rider) (s : ℤ)
    (hs1 : 1 ≤ s) (hs5 : s ≤ 5) :
    ((Rider.rate_driver r d s).1 = true ∧
      (Rider.rate_driver r d s).2.1 = { r with rating := some s } ∧
      (Rider.rate_driver r d s).2.2.total_ratings = d.total_ratings + 1 ∧
      (Rider.rate_driver r d s).2.2.average_rating =
        (d.average_rating * ((d.total_ratings + 1 : ℚ) - 1) + (s : ℚ)) /
          (d.total_ratings + 1 : ℚ)) ∧
    ((Driver.rate_rider ri s).1 = true ∧
      (Driver.rate_rider ri s).2.total_ratings = ri.total_ratings + 1 ∧
      (Driver.rate_rider ri s).2.average_rating =
        (ri.average_rating * ((ri.total_ratings + 1 : ℚ) - 1) + (s : ℚ)) /
          (ri.total_ratings + 1 : ℚ)) ∧
    (∀ t : ℤ, t < 1 ∨ 5 < t →
      Rider.rate_driver r d t = (false, r, d) ∧ Driver.rate_rider ri t = (false, ri)) ∧
    (Rider.rate_driver r
        (Rider.rate_driver r (Rider.rate_driver r c7_fresh_driver 5).2.2 3).2.2
        4).2.2.average_rating = 4 ∧
    (Rider.rate_driver r
        (Rider.rate_driver r (Rider.rate_driver r c7_fresh_driver 5).2.2 3).2.2
        4).2.2.total_ratings = 3 := by
  have hno : ¬(s < 1 ∨ 5 < s) := by omega
  refine ⟨⟨?_, ?_, ?_, ?_⟩, ⟨?_, ?_, ?_⟩, ?_, ?_, ?_⟩
  · simp [Rider.rate_driver, hno]
  · simp [Rider.rate_driver, hno]
  · simp [Rider.rate_driver, hno]
  · simp only [Rider.rate_driver, if_neg hno]
    push_cast
    ring
  · simp [Driver.rate_rider, hno]
  · simp [Driver.rate_rider, hno]
  · simp only [Driver.rate_rider, if_neg hno]
    push_cast
    ring
  · intro t ht
    constructor
    · simp only [Rider.rate_driver, if_pos ht]
    · simp only [Driver.rate_rider, if_pos ht]
  · simp [Rider.rate_driver, c7_fresh_driver, Driver.init]
    norm_num
  · simp [Rider.rate_driver, c7_fresh_driver, Driver.init]

/-- Witness for C7: rating the fresh driver 4 increments its count, and the
out-of-range score 9 is rejected unchanged. -/
theorem C7_rating_update_witness :
    (Rider.rate_driver c3_ride c7_fresh_driver 4).2.2.total_ratings
      = c7_fresh_driver.total_ratings + 1 ∧
    Rider.rate_driver c3_ride c7_fresh_driver 9 = (false, c3_ride, c7_fresh_driver) := by
  have h := C7_rating_update c3_ride c7_fresh_driver
    (Rider.init "Rina" "rina@email.com" "123" "Dhanmondi" 0) 4
    (by norm_num) (by norm_num)
  exact ⟨h.1.2.2.1, (h.2.2.1 9 (Or.inr (by norm_num))).1⟩

/-- C6: cancelling an in-progress ride always proceeds (the method falls
through, returning Python `None`), marks it cancelled and frees the bound
driver. Rider-initiated with wallet ≥ 20: the rider pays the 20 fee and a
bound driver receives it. Rider-initiated with wallet < 20: no fee moves.
Driver-initiated: no fee moves. -/
theorem C6_cancellation_fee (r : Ride) (ri : Rider) (dopt : Option Driver)
    (h1 : r.is_completed = false) (h2 : r.is_cancelled = false)
    (hf : r.cancellation_fee = 20) :
    (20 ≤ ri.wallet →
      (Ride.cancel_ride r ri dopt "rider").2.2.1.wallet = ri.wallet - 20 ∧
      ((Ride.cancel_ride r ri dopt "rider").2.2.2.map Driver.wallet)
        = dopt.map fun d => d.wallet + 20) ∧
    (ri.wallet < 20 →
      (Ride.cancel_ride r ri dopt "rider").2.2.1.wallet = ri.wallet ∧
      ((Ride.cancel_ride r ri dopt "rider").2.2.2.map Driver.wallet)
        = dopt.map Driver.wallet) ∧
    ((Ride.cancel_ride r ri dopt "driver").2.2.1.wallet = ri.wallet ∧
      ((Ride.cancel_ride r ri dopt "driver").2.2.2.map Driver.wallet)
        = dopt.map Driver.wallet) ∧
    (∀ who, (Ride.cancel_ride r ri dopt who).1 = none ∧
      (Ride.cancel_ride r ri dopt who).2.1.is_cancelled = true ∧
      ((Ride.cancel_ride r ri dopt who).2.2.2.map Driver.is_available)
        = dopt.map fun _ => true) := by
  refine ⟨?_, ?_, ?_, ?_⟩
  · intro hw
    constructor
    · simp [Ride.cancel_ride, h1, h2, hf, hw]
    · cases dopt <;> simp [Ride.cancel_ride, h1, h2, hf, hw]
  · intro hw
    have hw' : ¬ 20 ≤ ri.wallet := not_le.mpr hw
    constructor
    · simp [Ride.cancel_ride, h1, h2, hf, hw']
    · cases dopt <;> simp [Ride.cancel_ride, h1, h2, hf, hw']
  · constructor
    · simp [Ride.cancel_ride, h1, h2, hf]
    · cases dopt <;> simp [Ride.cancel_ride, h1, h2, hf]
  · intro who
    by_cases hwho : who = "rider"
    · subst hwho
      by_cases hm : 20 ≤ ri.wallet <;> cases dopt <;>
        simp [Ride.cancel_ride, h1, h2, hf, hm]
    · cases dopt <;> simp [Ride.cancel_ride, h1, h2, hf, hwho]

/-- Witness for C6: cancelling `c3_ride` (fee 20, rider wallet 100, bound
driver) by the rider moves the fee; by the driver it does not. -/
theorem C6_cancellation_fee_witness :
    ((Ride.cancel_ride c3_ride c3_rider (some c3_driver) "rider").2.2.1.wallet
      = c3_rider.wallet - 20 ∧
    ((Ride.cancel_ride c3_ride c3_rider (some c3_driver) "rider").2.2.2.map Driver.wallet)
      = (some c3_driver).map fun d => d.wallet + 20) ∧
    ((Ride.cancel_ride c3_ride c3_rider (some c3_driver) "driver").2.2.1.wallet
      = c3_rider.wallet) ∧
    (Ride.cancel_ride c3_ride c3_rider (some c3_driver) "rider").2.1.is_cancelled
      = true := by
  have h := C6_cancellation_fee c3_ride c3_rider (some c3_driver) rfl rfl rfl
  exact ⟨h.1 (by norm_num [c3_rider, Rider.init]), h.2.2.1.1, (h.2.2.2 "rider").2.1⟩

/-- Structure of Python's `max`: the fold starting from `a` over `as` yields
an element of `a :: as` whose key strictly exceeds every earlier element's
key and weakly dominates every later one (so it is the first maximum). -/
theorem pyMax_foldl_split {α : Type} (key : α → ℚ) :
    ∀ (as : List α) (a : α),
      ∃ l₁ l₂,
        a :: as = l₁ ++ (as.foldl (pyMaxStep key) a) :: l₂ ∧
        (∀ x ∈ l₁, key x < key (as.foldl (pyMaxStep key) a)) ∧
        (∀ x ∈ l₂, key x ≤ key (as.foldl (pyMaxStep key) a)) := by
  intro as
  induction as with
  | nil => exact fun a => ⟨[], [], rfl, by simp, by simp⟩
  | cons x xs ih =>
    intro a
    rw [List.foldl_cons]
    by_cases h : key a < key x
    · rw [show pyMaxStep key a x = x from if_pos h]
      obtain ⟨l₁, l₂, he, hl1, hl2⟩ := ih x
      have ham : key a < key (xs.foldl (pyMaxStep key) x) := by
        cases l₁ with
        | nil =>
          simp only [List.nil_append] at he
          rw [← (List.cons_eq_cons.mp he).1]
          exact h
        | cons z zs =>
          have hz : x = z := (List.cons_eq_cons.mp (by simpa using he)).1
          have := hl1 z (List.mem_cons_self z zs)
          rw [← hz] at this
          exact h.trans this
      refine ⟨a :: l₁, l₂, by simpa using he, ?_, hl2⟩
      intro y hy
      rcases List.mem_cons.mp hy with hrfl | hmem
      · subst hrfl; exact ham
      · exact hl1 y hmem
    · rw [show pyMaxStep key a x = a from if_neg h]
      obtain ⟨l₁, l₂, he, hl1, hl2⟩ := ih a
      cases l₁ with
      | nil =>
        simp only [List.nil_append] at he
        have ham := (List.cons_eq_cons.mp he).1
        have hxs := (List.cons_eq_cons.mp he).2
        refine ⟨[], x :: l₂, ?_, by simp, ?_⟩
        · rw [List.nil_append, ← ham, ← hxs]
        · intro y hy
          rcases List.mem_cons.mp hy with hrfl | hmem
          · subst hrfl
            rw [← ham]
            exact le_of_not_lt h
          · exact hl2 y hmem
      | cons z zs =>
        have hz : a = z := (List.cons_eq_cons.mp (by simpa using he)).1
        have htail : xs = zs ++ (xs.foldl (pyMaxStep key) a) :: l₂ :=
          (List.cons_eq_cons.mp (by simpa using he)).2
        have hma : key a < key (xs.foldl (pyMaxStep key) a) := by
          have := hl1 z (List.mem_cons_self z zs)
          rwa [← hz] at this
        refine ⟨a :: x :: zs, l₂, ?_, ?_, hl2⟩
        · simp only [List.cons_append]
          rw [← htail]
        intro y hy
        rcases List.mem_cons.mp hy with hrfl | hmem
        · subst hrfl; exact hma
        · rcases List.mem_cons.mp hmem with hrfl2 | hmem2
          · subst hrfl2
            exact lt_of_le_of_lt (le_of_not_lt h) hma
          · exact hl1 y (List.mem_cons_of_mem z hmem2)

/-- `pyMax` selects the first maximum: the list splits around the selected
element, with strictly smaller keys before it and no larger key after it. -/
theorem pyMax_split {α : Type} (key : α → ℚ) (l : List α) (b : α)
    (h : pyMax key l = some b) :
    ∃ l₁ l₂, l = l₁ ++ b :: l₂ ∧
      (∀ x ∈ l₁, key x < key b) ∧ ∀ x ∈ l₂, key x ≤ key b := by
  cases l with
  | nil => simp [pyMax] at h
  | cons a as =>
    have hb : as.foldl (pyMaxStep key) a = b := by simpa [pyMax] using h
    obtain ⟨l₁, l₂, he, h1, h2⟩ := pyMax_foldl_split key as a
    rw [hb] at he h1 h2
    exact ⟨l₁, l₂, he, h1, h2⟩

/-- C2: under the program invariant that stored vehicle types are lowercase
(they are always `"car"`, `"bike"` or `"cng"`), the code's candidate filter
agrees with the spec's case-insensitive one; matching returns
`noDriverAvailable` exactly when no suitable driver exists; and a returned
ride is bound to a driver that was available with a case-insensitively
matching vehicle type, had the maximum `average_rating` among suitable
drivers, and was the first such driver in iteration order on ties. -/
theorem C2_matching (drivers : List Driver) (loc dest vt : String) (g : ℕ)
    (hlc : ∀ d ∈ drivers, ∀ v, d.vehicle = some v →
      strLower v.vehicle_type = v.vehicle_type) :
    ((RideMatching.available drivers).filter (suitable_for vt)
      = drivers.filter (spec_suitable vt)) ∧
    ((RideMatching.available drivers).filter (suitable_for vt) = [] →
      RideMatching.find_driver (RideMatching.available drivers) loc dest vt g
        = .error .noDriverAvailable) ∧
    ((RideMatching.available drivers).filter (suitable_for vt) ≠ [] →
      ∃ ride drv,
        RideMatching.find_driver (RideMatching.available drivers) loc dest vt g
          = .ok (ride, drv)) ∧
    (∀ ride drv,
      RideMatching.find_driver (RideMatching.available drivers) loc dest vt g
          = .ok (ride, drv) →
      ∃ best l₁ l₂,
        (RideMatching.available drivers).filter (suitable_for vt)
          = l₁ ++ best :: l₂ ∧
        drv = { best with is_available := false } ∧
        ride.driver = some best.nid ∧
        ride.vehicle = best.vehicle ∧
        best.is_available = true ∧
        (∃ v, best.vehicle = some v ∧ strLower v.vehicle_type = strLower vt) ∧
        (∀ x ∈ l₁, x.average_rating < best.average_rating) ∧
        (∀ x ∈ l₂, x.average_rating ≤ best.average_rating)) := by
  refine ⟨?_, ?_, ?_, ?_⟩
  · rw [RideMatching.available, List.filter_filter]
    apply List.filter_congr
    intro d hd
    rcases hveh : d.vehicle with _ | v
    · simp [suitable_for, spec_suitable, hveh]
    · simp [suitable_for, spec_suitable, hveh, hlc d hd v hveh, Bool.and_comm]
  · intro hS
    by_cases hA : (RideMatching.available drivers).isEmpty
    · simp [RideMatching.find_driver, hA]
    · simp [RideMatching.find_driver, hA, hS, pyMax]
  · intro hne
    have hA : ¬ (RideMatching.available drivers).isEmpty = true := by
      intro hAe
      apply hne
      rw [List.isEmpty_iff.mp hAe]
      rfl
    obtain ⟨best, hp⟩ : ∃ best,
        pyMax (fun d => d.average_rating)
          ((RideMatching.available drivers).filter (suitable_for vt)) = some best := by
      rcases hSc : (RideMatching.available drivers).filter (suitable_for vt) with _ | ⟨a, as⟩
      · exact absurd hSc hne
      · exact ⟨_, rfl⟩
    have hbestS : best ∈ (RideMatching.available drivers).filter (suitable_for vt) := by
      obtain ⟨l₁, l₂, hS, -, -⟩ := pyMax_split _ _ _ hp
      rw [hS]
      exact List.mem_append_right _ (List.mem_cons_self _ _)
    have hsf : suitable_for vt best = true := List.of_mem_filter hbestS
    obtain ⟨v, hv⟩ : ∃ v, best.vehicle = some v := by
      unfold suitable_for at hsf
      rcases hveh : best.vehicle with _ | v
      · rw [hveh] at hsf
        simp at hsf
      · exact ⟨v, rfl⟩
    rcases hres : RideMatching.find_driver (RideMatching.available drivers) loc dest vt g
      with e | out
    · exfalso
      simp [RideMatching.find_driver, hA, hp, hv, Ride.init, calculate_fare,
        Except.map] at hres
    · exact ⟨out.1, out.2, rfl⟩
  · intro ride drv h
    by_cases hA : (RideMatching.available drivers).isEmpty
    · simp [RideMatching.find_driver, hA] at h
    · simp only [RideMatching.find_driver, hA, Bool.false_eq_true, if_false] at h
      rcases hp : pyMax (fun d => d.average_rating)
          ((RideMatching.available drivers).filter (suitable_for vt)) with _ | best
      · rw [hp] at h
        simp at h
      · rw [hp, Option.elim_some] at h
        obtain ⟨l₁, l₂, hS, hlt, hle⟩ := pyMax_split _ _ _ hp
        have hbestS : best ∈ (RideMatching.available drivers).filter (suitable_for vt) := by
          rw [hS]
          exact List.mem_append_right _ (List.mem_cons_self _ _)
        have hbA : best ∈ RideMatching.available drivers := List.mem_of_mem_filter hbestS
        have hsf : suitable_for vt best = true := List.of_mem_filter hbestS
        have hav : best.is_available = true := by
          rw [RideMatching.available] at hbA
          exact List.of_mem_filter hbA
        have hbdrivers : best ∈ drivers := by
          rw [RideMatching.available] at hbA
          exact List.mem_of_mem_filter hbA
        obtain ⟨v, hv⟩ : ∃ v, best.vehicle = some v := by
          unfold suitable_for at hsf
          rcases hveh : best.vehicle with _ | v
          · rw [hveh] at hsf
            simp at hsf
          · exact ⟨v, rfl⟩
        have hvt : v.vehicle_type = strLower vt := by
          unfold suitable_for at hsf
          rw [hv] at hsf
          simpa using hsf
        rw [hv] at h
        simp only [Ride.init, calculate_fare, Except.map, Driver.accept_ride] at h
        rw [Except.ok.injEq, Prod.mk.injEq] at h
        refine ⟨best, l₁, l₂, hS, h.2.symm, ?_, ?_, hav,
          ⟨v, hv, by rw [hlc best hbdrivers v hv, hvt]⟩, hlt, hle⟩
        · rw [← h.1]
        · rw [← h.1, hv]

/-- Witness for C2: the three demo drivers, requesting vehicle type `"Bike"`
(exercising the case-insensitive comparison). -/
theorem C2_matching_witness :
    ((RideMatching.available [demo_hablu, demo_karim, demo_jamal]).filter
        (suitable_for "Bike")
      = [demo_hablu, demo_karim, demo_jamal].filter (spec_suitable "Bike")) ∧
    ∃ ride drv,
      RideMatching.find_driver
          (RideMatching.available [demo_hablu, demo_karim, demo_jamal])
          "Mohakhali" "Banani" "Bike" 0
        = .ok (ride, drv) := by
  have hlc : ∀ d ∈ [demo_hablu, demo_karim, demo_jamal], ∀ v, d.vehicle = some v →
      strLower v.vehicle_type = v.vehicle_type := by
    intro d hd v hv
    simp only [List.mem_cons, List.not_mem_nil, or_false] at hd
    rcases hd with rfl | rfl | rfl <;>
      · simp only [demo_hablu, demo_karim, demo_jamal, Driver.init] at hv
        injection hv with hv2
        subst hv2
        decide
  have h := C2_matching [demo_hablu, demo_karim, demo_jamal] "Mohakhali" "Banani" "Bike" 0 hlc
  exact ⟨h.1, h.2.2.1 (by decide)⟩

/-- C8: `get_top_rated_drivers` returns exactly the first `limit` drivers of
a descending lexicographic sort by `(average_rating, total_rides)` of
exactly the drivers with at least one rating: the output consists of rated
drivers, is sorted descending, has length `min limit #rated`, equals
`S.take limit` for a descending sort `S` that is a permutation of the rated
drivers, weakly dominates every rated driver that was left out (so it is the
top segment, not an arbitrary sorted selection), is a permutation of all
rated drivers when the limit allows, and over the demo drivers rated 4.5,
4.8 and 4.2 with limit 2 it returns the 4.8 driver first, then 4.5. -/
theorem C8_top_rated (drivers : List Driver) (limit : ℕ) :
    (∀ d ∈ get_top_rated_drivers drivers limit, 0 < d.total_ratings ∧ d ∈ drivers) ∧
    List.Sorted trd_before (get_top_rated_drivers drivers limit) ∧
    (get_top_rated_drivers drivers limit).length
      = min limit (drivers.filter fun d => 0 < d.total_ratings).length ∧
    (∃ S, S.Perm (drivers.filter fun d => 0 < d.total_ratings) ∧
      List.Sorted trd_before S ∧
      get_top_rated_drivers drivers limit = S.take limit) ∧
    (∀ d ∈ get_top_rated_drivers drivers limit,
      ∀ x ∈ drivers.filter fun y => 0 < y.total_ratings,
        x ∉ get_top_rated_drivers drivers limit → trd_before d x) ∧
    ((drivers.filter fun d => 0 < d.total_ratings).length ≤ limit →
      (get_top_rated_drivers drivers limit).Perm
        (drivers.filter fun d => 0 < d.total_ratings)) ∧
    get_top_rated_drivers [demo_hablu, demo_karim, demo_jamal] 2
      = [demo_karim, demo_hablu] := by
  have hdemo : get_top_rated_drivers [demo_hablu, demo_karim, demo_jamal] 2
      = [demo_karim, demo_hablu] := by
    norm_num [get_top_rated_drivers, List.insertionSort, List.orderedInsert,
      trd_before, trd_key, demo_hablu, demo_karim, demo_jamal, Driver.init]
  by_cases hD : drivers.isEmpty
  · have hnil : drivers = [] := List.isEmpty_iff.mp hD
    subst hnil
    exact ⟨by simp [get_top_rated_drivers], by simp [get_top_rated_drivers],
      by simp [get_top_rated_drivers],
      ⟨[], by simp, List.sorted_nil, by simp [get_top_rated_drivers]⟩,
      by simp [get_top_rated_drivers], by simp [get_top_rated_drivers], hdemo⟩
  · have hD' : drivers.isEmpty = false := by simpa using hD
    by_cases hR : (drivers.filter fun d => 0 < d.total_ratings).isEmpty
    · have hRnil : drivers.filter (fun d => 0 < d.total_ratings) = [] :=
        List.isEmpty_iff.mp hR
      have hout : get_top_rated_drivers drivers limit = [] := by
        simp [get_top_rated_drivers, hD', hR]
      refine ⟨?_, ?_, ?_, ?_, ?_, ?_, hdemo⟩
      · simp [hout]
      · simp [hout]
      · simp [hout, hRnil]
      · exact ⟨[], by rw [hRnil], List.sorted_nil, by simp [hout]⟩
      · simp [hout]
      · intro hlen
        rw [hout, hRnil]
    · have hR' : (drivers.filter fun d => 0 < d.total_ratings).isEmpty = false := by
        simpa using hR
      have hout : get_top_rated_drivers drivers limit
          = (List.insertionSort trd_before
              (drivers.filter fun d => 0 < d.total_ratings)).take limit := by
        simp [get_top_rated_drivers, hD', hR']
      refine ⟨?_, ?_, ?_, ?_, ?_, ?_, hdemo⟩
      · intro d hd
        rw [hout] at hd
        have hd2 : d ∈ List.insertionSort trd_before
            (drivers.filter fun x => 0 < x.total_ratings) :=
          List.take_subset _ _ hd
        have hd3 : d ∈ drivers.filter (fun x => 0 < x.total_ratings) :=
          (List.mem_insertionSort trd_before).mp hd2
        exact ⟨of_decide_eq_true (List.mem_filter.mp hd3).2, (List.mem_filter.mp hd3).1⟩
      · rw [hout]
        exact List.Pairwise.sublist (List.take_sublist _ _)
          (List.sorted_insertionSort trd_before _)
      · rw [hout, List.length_take, List.length_insertionSort]
      · exact ⟨List.insertionSort trd_before
            (drivers.filter fun d => 0 < d.total_ratings),
          List.perm_insertionSort _ _, List.sorted_insertionSort _ _, hout⟩
      · intro d hd x hx hnx
        rw [hout] at hd hnx
        have hxS : x ∈ List.insertionSort trd_before
            (drivers.filter fun y => 0 < y.total_ratings) :=
          ((List.perm_insertionSort trd_before _).mem_iff).mpr hx
        have hxS2 : x ∈ (List.insertionSort trd_before
              (drivers.filter fun y => 0 < y.total_ratings)).take limit ++
            (List.insertionSort trd_before
              (drivers.filter fun y => 0 < y.total_ratings)).drop limit := by
          rw [List.take_append_drop]
          exact hxS
        have hxdrop : x ∈ (List.insertionSort trd_before
            (drivers.filter fun y => 0 < y.total_ratings)).drop limit := by
          rcases List.mem_append.mp hxS2 with h1 | h2
          · exact absurd h1 hnx
          · exact h2
        have hs : List.Sorted trd_before
            ((List.insertionSort trd_before
                (drivers.filter fun y => 0 < y.total_ratings)).take limit ++
              (List.insertionSort trd_before
                (drivers.filter fun y => 0 < y.total_ratings)).drop limit) := by
          rw [List.take_append_drop]
          exact List.sorted_insertionSort trd_before _
        exact (List.pairwise_append.mp hs).2.2 d hd x hxdrop
      · intro hlen
        rw [hout, List.take_of_length_le]
        · exact List.perm_insertionSort _ _
        · rw [List.length_insertionSort]
          exact hlen

/-- Witness for C8: over the three demo drivers, with limit 2 the output is
the 2-element top segment of a descending sort of the rated drivers, and
with limit 5 it is a permutation of all of them. -/
theorem C8_top_rated_witness :
    (∃ S, S.Perm ([demo_hablu, demo_karim, demo_jamal].filter
          fun d => 0 < d.total_ratings) ∧
      List.Sorted trd_before S ∧
      get_top_rated_drivers [demo_hablu, demo_karim, demo_jamal] 2 = S.take 2) ∧
    (get_top_rated_drivers [demo_hablu, demo_karim, demo_jamal] 5).Perm
      ([demo_hablu, demo_karim, demo_jamal].filter fun d => 0 < d.total_ratings) ∧
    (get_top_rated_drivers [demo_hablu, demo_karim, demo_jamal] 2).length
      = min 2 ([demo_hablu, demo_karim, demo_jamal].filter
          fun d => 0 < d.total_ratings).length := by
  refine ⟨?_, ?_, ?_⟩
  · exact (C8_top_rated [demo_hablu, demo_karim, demo_jamal] 2).2.2.2.1
  · exact (C8_top_rated [demo_hablu, demo_karim, demo_jamal] 5).2.2.2.2.2.1 (by decide)
  · exact (C8_top_rated [demo_hablu, demo_karim, demo_jamal] 2).2.2.1

/-- Batteries' `Rat.floor` agrees with the `Int.floor` of `ℚ`. -/
theorem rat_floor_eq_int_floor (q : ℚ) : Rat.floor q = ⌊q⌋ := by
  rw [Rat.floor_def', Rat.floor_def]

/-- Rounding an integer to 2 decimal places leaves it unchanged. -/
theorem round2_int (n : ℤ) : round2 (n : ℚ) = n := by
  unfold round2
  rw [rat_floor_eq_int_floor]
  have hfl : ⌊(n : ℚ) * 100 + 1 / 2⌋ = n * 100 := by
    rw [Int.floor_eq_iff]
    constructor
    · push_cast
      linarith
    · push_cast
      linarith
  rw [hfl]
  push_cast
  field_simp

/-- C4 (code-bug evidence): the spec's insufficient-funds scenario — rider
with wallet 100, one available car driver, matched distance 10 km, fare 350.
The request is reported as `insufficientFunds` and the rider is untouched
(`current_ride` unset), but the matched driver is left with
`is_available = false`: the source performs no rollback of the
`accept_ride` bind. -/
theorem C4_no_rollback :
    (Rider.request_ride c4_rider [c4_driver] "Banani" "car" 5).result
      = .error .insufficientFunds ∧
    (Rider.request_ride c4_rider [c4_driver] "Banani" "car" 5).rider = c4_rider ∧
    (Rider.request_ride c4_rider [c4_driver] "Banani" "car" 5).rider.current_ride
      = none ∧
    ((Rider.request_ride c4_rider [c4_driver] "Banani" "car" 5).matched_driver.map
      Driver.is_available) = some false := by
  have hlow : strLower "car" = "car" := rfl
  have hf350 : round2 350 = 350 := by
    have h := round2_int 350
    push_cast at h
    exact h
  norm_num [Rider.request_ride, hasActiveRide, c4_rider, Rider.init,
    RideMatching.available, RideMatching.find_driver, suitable_for, c4_driver,
    Driver.init, Car, pyMax, pyMaxStep, Ride.init, calculate_fare, Except.map,
    Driver.accept_ride, randint_5_25, hlow, hf350]

/-- C5 (code-bug evidence): `cancel_ride` correctly refuses to act on the
already-cancelled `c5_ride` (returns Python `False`, everything unchanged),
but `end_ride` has no status guard: applied to the same cancelled ride it
marks it completed (while still cancelled) and settles the fare against the
wallets — a transition out of a terminal state. -/
theorem C5_terminal_state_violated :
    c5_ride.is_cancelled = true ∧
    (Ride.cancel_ride c5_ride c5_rider (some c5_driver) "rider")
      = (some false, c5_ride, c5_rider, some c5_driver) ∧
    (Ride.end_ride c5_ride c5_rider c5_driver).1.is_completed = true ∧
    (Ride.end_ride c5_ride c5_rider c5_driver).1.is_cancelled = true ∧
    (Ride.end_ride c5_ride c5_rider c5_driver).2.1.wallet
      = c5_rider.wallet - c5_ride.estimated_fare ∧
    (Ride.end_ride c5_ride c5_rider c5_driver).2.2.wallet
      = c5_driver.wallet + c5_ride.estimated_fare := by
  refine ⟨rfl, ?_, rfl, rfl, rfl, rfl⟩
  simp [Ride.cancel_ride, c5_ride]

end RideShare
